import Mathlib

/-!
Shallow embedding of the FileStoreBot Cloudflare worker
(`enhanced-file-store-bot.js`): the key-value store, the file registry
(`FileManager`), the session store (`SessionManager`), the usage recorder
(`Analytics`), the command/callback dispatcher (`CommandHandler`), the
update router (`TelegramBot.processUpdate`) and the HTTP entry point
(`fetch`).  Outbound Telegram API calls are modelled as an effect trace
(`Eff`); the wall clock (`Date.now()`), the current date string and the
random id from `crypto.getRandomValues` are passed in explicitly through
a context record (`Ctx`).
-/

namespace FSB

/-! ### Association-list primitives for the KV namespace (`Database` class)

The worker keeps every record in one Cloudflare KV namespace under
prefixed keys (`file:`, `user:files:`, `category:`, `session:`,
`bot:stats`).  The prefixes are pairwise incompatible, so the namespace
is modelled as a record of association lists, one per prefix.  `put`
overwrites the previous value of a key; the physical order of an
association list is never observed except through `listFileKeys`, which
sorts (Cloudflare KV lists keys in lexicographic order). -/

def alGet {α : Type} : List (String × α) → String → Option α
  | [], _ => none
  | (k, v) :: rest, key => if k = key then some v else alGet rest key

def alSet {α : Type} (l : List (String × α)) (key : String) (v : α) : List (String × α) :=
  (key, v) :: l.filter (fun p => decide (p.1 ≠ key))

def alDel {α : Type} (l : List (String × α)) (key : String) : List (String × α) :=
  l.filter (fun p => decide (p.1 ≠ key))

theorem alGet_alSet_self {α : Type} (l : List (String × α)) (k : String) (v : α) :
    alGet (alSet l k v) k = some v := by
  simp [alSet, alGet]

theorem alGet_filter_ne {α : Type} (l : List (String × α)) (k k' : String) (h : k' ≠ k) :
    alGet (l.filter (fun p => decide (p.1 ≠ k))) k' = alGet l k' := by
  induction l with
  | nil => rfl
  | cons p rest ih =>
      obtain ⟨a, b⟩ := p
      rw [List.filter_cons]
      by_cases hp : a = k
      · have hd : (decide ((a, b).1 ≠ k)) = false := by simp [hp]
        rw [hd]
        simp only [Bool.false_eq_true, if_false]
        rw [ih]
        have hne : ¬ a = k' := fun hc => h (hc ▸ hp)
        simp [alGet, hne]
      · have hd : (decide ((a, b).1 ≠ k)) = true := by simp [hp]
        rw [hd]
        simp only [if_true]
        by_cases hk' : a = k'
        · simp [alGet, hk']
        · simp only [decide_not] at ih
          simp [alGet, hk', ih]

theorem alGet_alDel_self {α : Type} (l : List (String × α)) (k : String) :
    alGet (alDel l k) k = none := by
  induction l with
  | nil => rfl
  | cons p rest ih =>
      obtain ⟨a, b⟩ := p
      unfold alDel at ih ⊢
      rw [List.filter_cons]
      by_cases hp : a = k
      · have hd : (decide ((a, b).1 ≠ k)) = false := by simp [hp]
        rw [hd]
        simpa using ih
      · have hd : (decide ((a, b).1 ≠ k)) = true := by simp [hp]
        rw [hd]
        simp only [if_true]
        simp only [decide_not] at ih
        simp [alGet, hp, ih]

/-! ### JavaScript helpers -/

/-- JS `Array.prototype.slice(s, e)`: negative indices count from the end,
both bounds are clamped to `[0, length]`. -/
def jsSlice {α : Type} (l : List α) (s e : Int) : List α :=
  let n : Int := l.length
  let s' : Int := if s < 0 then max (n + s) 0 else min s n
  let e' : Int := if e < 0 then max (n + e) 0 else min e n
  (l.take e'.toNat).drop s'.toNat

def isHexDigitChar (c : Char) : Bool :=
  c.isDigit || ('a' ≤ c && c ≤ 'f') || ('A' ≤ c && c ≤ 'F')

def hexDigitVal (c : Char) : Nat :=
  if c.isDigit then c.toNat - '0'.toNat
  else if 'a' ≤ c && c ≤ 'f' then c.toNat - 'a'.toNat + 10
  else c.toNat - 'A'.toNat + 10

def decValue (cs : List Char) : Nat :=
  cs.foldl (fun acc c => acc * 10 + (c.toNat - '0'.toNat)) 0

def hexValue (cs : List Char) : Nat :=
  cs.foldl (fun acc c => acc * 16 + hexDigitVal c) 0

/-- JS `parseInt(s)` with the default radix: skip leading whitespace, optional
sign, auto-detected `0x` hex literal, longest digit run; `none` is `NaN`. -/
def jsParseInt (s : String) : Option Int :=
  let cs := s.data.dropWhile Char.isWhitespace
  let sgn : Int := match cs with
    | '-' :: _ => -1
    | _ => 1
  let cs1 : List Char := match cs with
    | '-' :: r => r
    | '+' :: r => r
    | _ => cs
  match cs1 with
  | '0' :: 'x' :: r =>
      let ds := r.takeWhile isHexDigitChar
      if ds.isEmpty then none else some (sgn * (hexValue ds : Nat))
  | '0' :: 'X' :: r =>
      let ds := r.takeWhile isHexDigitChar
      if ds.isEmpty then none else some (sgn * (hexValue ds : Nat))
  | _ =>
      let ds := cs1.takeWhile Char.isDigit
      if ds.isEmpty then none else some (sgn * (decValue ds : Nat))

/-- Codepoint-lexicographic order on strings, the order Cloudflare KV
lists keys in (byte order; identical on the ASCII keys this worker
builds). -/
def lexLe : List Char → List Char → Bool
  | [], _ => true
  | _ :: _, [] => false
  | a :: as, b :: bs =>
      if a.toNat < b.toNat then true
      else if b.toNat < a.toNat then false
      else lexLe as bs

def keyLe (a b : String) : Bool := lexLe a.data b.data

/-- JS `String.prototype.split` on the colon character (no limit, empty pieces preserved). -/
def splitColonAux : List Char → List Char → List String
  | [], acc => [String.mk acc.reverse]
  | c :: rest, acc =>
      if c = ':' then String.mk acc.reverse :: splitColonAux rest []
      else splitColonAux rest (c :: acc)

def splitColon (s : String) : List String := splitColonAux s.data []

/-- JS `String.prototype.includes`. -/
def strIncludesL (hay needle : List Char) : Bool :=
  match hay with
  | [] => needle.isEmpty
  | _ :: rest => needle.isPrefixOf hay || strIncludesL rest needle

def strIncludes (hay needle : String) : Bool :=
  strIncludesL hay.data needle.data

/-- JS `Date.toLocaleDateString()` is locale/environment dependent; it is
abstracted as the decimal rendering of the epoch-millis timestamp.  No
verified property depends on the rendered date text. -/
def localeDate (t : Nat) : String := toString t

/-- JS `caption.substring(0, 30)` plus the three-dot suffix when longer. -/
def capSnippet (c : String) : String :=
  String.mk (c.data.take 30) ++ (if 30 < c.data.length then "..." else "")

/-! ### Data model -/

structure PhotoInfo where
  file_id : String
  file_unique_id : String
  file_size : Nat
  width : Nat
  height : Nat
deriving DecidableEq

/-- The media payload of a Telegram message, one of the six kinds the bot
recognises.  `photo` carries the full size array (the code picks the last,
highest-resolution entry). -/
inductive Attachment where
  | document (file_id file_unique_id : String) (file_size : Nat) (mime_type : Option String)
  | photo (sizes : List PhotoInfo)
  | video (file_id file_unique_id : String) (file_size width height duration : Nat)
      (mime_type : Option String)
  | audio (file_id file_unique_id : String) (file_size duration : Nat)
      (performer title : Option String) (mime_type : Option String)
  | voice (file_id file_unique_id : String) (file_size duration : Nat) (mime_type : Option String)
  | animation (file_id file_unique_id : String) (file_size width height duration : Nat)
      (mime_type : Option String)
deriving DecidableEq

/-- The object built by `CommandHandler.extractFileData`.  Fields that a
given kind does not set are `none`/defaults (JS leaves them `undefined`). -/
structure FileData where
  file_id : String := ""
  file_type : String := ""
  file_unique_id : String := ""
  file_size : Nat := 0
  width : Option Nat := none
  height : Option Nat := none
  duration : Option Nat := none
  performer : Option String := none
  title : Option String := none
  caption : String := ""
  mime_type : Option String := none
deriving DecidableEq

/-- The record stored under `file:<id>` by `FileManager.saveFile`
(`{ id, ...fileData, savedBy, category, createdAt, accessCount,
lastAccessed }`); the spread fields are kept nested in `fileData`. -/
structure FileRecord where
  id : String
  fileData : FileData
  savedBy : String
  category : String
  createdAt : Nat
  accessCount : Nat
  lastAccessed : Option Nat
deriving DecidableEq

/-- Values stored inside a session’s free-form `data` object. -/
inductive DVal where
  | num (n : Nat)
  | str (s : String)
  | file (f : FileData)
deriving DecidableEq

/-- A session’s `data` payload, a JS object modelled as a keyed list. -/
abbrev SData := List (String × DVal)

structure Session where
  userId : String
  state : String
  data : SData
  createdAt : Nat
  lastActive : Nat
deriving DecidableEq

structure UserStat where
  firstSeen : Nat
  actions : Nat
  lastSeen : Option Nat
deriving DecidableEq

structure DayStat where
  users : List (String × Nat) := []
  actions : List (String × Nat) := []
deriving DecidableEq

structure BotStats where
  users : List (String × UserStat) := []
  actions : List (String × Nat) := []
  dailyStats : List (String × DayStat) := []
deriving DecidableEq

/-- The KV namespace, split by key prefix (`file:`, `user:files:`,
`category:`, `session:`, `bot:stats`). -/
structure Store where
  files : List (String × FileRecord) := []
  userFiles : List (String × List String) := []
  catFiles : List (String × List String) := []
  sessions : List (String × Session) := []
  stats : Option BotStats := none
deriving DecidableEq

def fileKey (id : String) : String := "file:" ++ id
def userFilesKey (uid : String) : String := "user:files:" ++ uid
def categoryKey (cat : String) : String := "category:" ++ cat
def sessionKey (uid : String) : String := "session:" ++ uid

/-- The `CONFIG` object plus the ambient effects of one webhook invocation: the wall
clock (`Date.now()`), today’s date string, and the random id that
`Utils.generateSecureId` would produce for the (at most one) save in this
event. -/
structure Ctx where
  adminIds : List String
  botUsername : String
  analyticsEnabled : Bool
  now : Nat
  today : String
  freshId : String

/-- The check `CommandHandler.isAdmin` / `CONFIG.ADMIN_IDS.includes`. -/
def isAdmin (ctx : Ctx) (userId : String) : Prop := userId ∈ ctx.adminIds

instance (ctx : Ctx) (u : String) : Decidable (isAdmin ctx u) := by
  unfold isAdmin; infer_instance

/-! ### FileManager -/

def getFile (db : Store) (fileId : String) : Option FileRecord :=
  alGet db.files (fileKey fileId)

def saveFile (db : Store) (fd : FileData) (userId category freshId : String) (now : Nat) :
    Store × String :=
  let fileObject : FileRecord :=
    { id := freshId, fileData := fd, savedBy := userId, category := category,
      createdAt := now, accessCount := 0, lastAccessed := none }
  let db1 := { db with files := alSet db.files (fileKey freshId) fileObject }
  let userIds := (alGet db1.userFiles (userFilesKey userId)).getD []
  let db2 := { db1 with userFiles := alSet db1.userFiles (userFilesKey userId) (userIds ++ [freshId]) }
  let catIds := (alGet db2.catFiles (categoryKey category)).getD []
  let db3 := { db2 with catFiles := alSet db2.catFiles (categoryKey category) (catIds ++ [freshId]) }
  (db3, freshId)

def trackFileAccess (db : Store) (fileId : String) (now : Nat) : Store :=
  match getFile db fileId with
  | none => db
  | some file =>
      let file' : FileRecord :=
        { file with accessCount := file.accessCount + 1, lastAccessed := some now }
      { db with files := alSet db.files (fileKey fileId) file' }

def deleteFile (admins : List String) (db : Store) (fileId userId : String) : Store × Bool :=
  match getFile db fileId with
  | none => (db, false)
  | some file =>
      if userId ∉ admins ∧ file.savedBy ≠ userId then (db, false)
      else
        let db1 := { db with files := alDel db.files (fileKey fileId) }
        let userIds := (alGet db1.userFiles (userFilesKey file.savedBy)).getD []
        let userIds' := userIds.filter (fun i => decide (i ≠ fileId))
        let db2 := { db1 with userFiles := alSet db1.userFiles (userFilesKey file.savedBy) userIds' }
        let catIds := (alGet db2.catFiles (categoryKey file.category)).getD []
        let catIds' := catIds.filter (fun i => decide (i ≠ fileId))
        let db3 := { db2 with catFiles := alSet db2.catFiles (categoryKey file.category) catIds' }
        (db3, true)

def getUserFiles (db : Store) (userId : String) : List FileRecord :=
  (((alGet db.userFiles (userFilesKey userId)).getD []).map (getFile db)).reduceOption

def getFilesByCategory (db : Store) (category : String) : List FileRecord :=
  (((alGet db.catFiles (categoryKey category)).getD []).map (getFile db)).reduceOption

/-- The listing `db.listKeys` at the `file:` prefix: every key of the namespace with the `file:`
prefix, in the lexicographic order Cloudflare KV lists keys in. -/
def listFileKeys (db : Store) : List String :=
  (db.files.map Prod.fst).insertionSort (fun a b => keyLe a b = true)

/-! ### SessionManager -/

def getSession (db : Store) (userId : String) (now : Nat) : Store × Session :=
  match alGet db.sessions (sessionKey userId) with
  | some s => (db, s)
  | none =>
      let s : Session :=
        { userId := userId, state := "idle", data := [], createdAt := now, lastActive := now }
      ({ db with sessions := alSet db.sessions (sessionKey userId) s }, s)

/-- The `updates` object passed to `SessionManager.updateSession`; absent
fields keep the session’s current value under the object spread. -/
structure SessionUpdates where
  state : Option String := none
  data : Option SData := none

def updateSession (db : Store) (userId : String) (u : SessionUpdates) (now : Nat) :
    Store × Session :=
  let r := getSession db userId now
  let s' : Session :=
    { r.2 with state := u.state.getD r.2.state, data := u.data.getD r.2.data, lastActive := now }
  ({ r.1 with sessions := alSet r.1.sessions (sessionKey userId) s' }, s')

def setState (db : Store) (userId state : String) (data : SData) (now : Nat) :
    Store × Session :=
  updateSession db userId { state := some state, data := some data } now

/-! ### Analytics -/

def trackAction (ctx : Ctx) (db : Store) (userId action : String) : Store :=
  if ¬ ctx.analyticsEnabled then db else
  let stats := db.stats.getD {}
  let u : UserStat :=
    match alGet stats.users userId with
    | none => { firstSeen := ctx.now, actions := 1, lastSeen := some ctx.now }
    | some u0 => { u0 with actions := u0.actions + 1, lastSeen := some ctx.now }
  let day := (alGet stats.dailyStats ctx.today).getD {}
  let day' : DayStat :=
    { users := alSet day.users userId ((alGet day.users userId).getD 0 + 1),
      actions := alSet day.actions action ((alGet day.actions action).getD 0 + 1) }
  let stats' : BotStats :=
    { users := alSet stats.users userId u,
      actions := alSet stats.actions action ((alGet stats.actions action).getD 0 + 1),
      dailyStats := alSet stats.dailyStats ctx.today day' }
  { db with stats := some stats' }

def getStats (db : Store) : BotStats := db.stats.getD {}

/-! ### Outbound Messenger interface (`TelegramAPI`), as an effect trace -/

structure Button where
  text : String
  callback_data : String
deriving DecidableEq

abbrev Keyboard := List (List Button)

/-- One outbound Telegram API call.  `sendVoice`/`sendAnimation` are the
`callMethod` invocations in `handleStart`’s switch. -/
inductive Eff where
  | sendMessage (chatId : Int) (text : String) (keyboard : Option Keyboard)
  | sendDocument (chatId : Int) (fileId : String) (caption : Option String)
  | sendPhoto (chatId : Int) (fileId : String) (caption : Option String)
  | sendVideo (chatId : Int) (fileId : String) (caption : Option String)
  | sendAudio (chatId : Int) (fileId : String) (caption : Option String)
  | sendVoice (chatId : Int) (fileId : String) (caption : Option String)
  | sendAnimation (chatId : Int) (fileId : String) (caption : Option String)
  | editMessageText (chatId : Int) (messageId : Nat) (text : String) (keyboard : Option Keyboard)
  | deleteMessage (chatId : Int) (messageId : Nat)
  | answerCallbackQuery (queryId : String) (text : Option String)
deriving DecidableEq

/-! ### Inbound update shapes -/

/-- The fields of `message.reply_to_message` that the code reads. -/
structure BareMsg where
  message_id : Nat
  attachment : Option Attachment
  caption : Option String
deriving DecidableEq

structure Msg where
  chatId : Int
  fromId : Nat
  message_id : Nat
  msgText : Option String
  attachment : Option Attachment
  caption : Option String
  reply_to_message : Option BareMsg
deriving DecidableEq

structure CbMsg where
  chatId : Int
  message_id : Nat
deriving DecidableEq

structure CbQuery where
  id : String
  fromId : Nat
  data : String
  message : CbMsg
deriving DecidableEq

inductive Update where
  | message (m : Msg)
  | callback (q : CbQuery)
  | other
deriving DecidableEq

/-! ### Parsing helpers of `CommandHandler` -/

/-- The class `[a-zA-Z0-9_]`, i.e. the regex class `\w`. -/
def isWordChar (c : Char) : Bool := c.isAlphanum || c = '_'

/-- Characters the regex `.` (no `s` flag) refuses to match. -/
def noLineTerm (c : Char) : Bool := !(c = '\n' || c = '\r')

structure Cmd where
  command : String
  args : String
deriving DecidableEq

/-- The `(?:\s+(.*))?$` tail of the command regex: the remainder must be
empty, or whitespace followed by a line-terminator-free capture. -/
def parseCmdArgs : List Char → Option String
  | [] => some ""
  | c :: rest =>
      if c.isWhitespace then
        let tail := (c :: rest).dropWhile Char.isWhitespace
        if tail.all noLineTerm then some (String.mk tail) else none
      else none

/-- The regex of `CommandHandler.parseCommand`: the anchored regex
`^\/([a-zA-Z0-9_]+)(?:@\w+)?(?:\s+(.*))?$`, command lowercased, args
trimmed (empty when the capture is missing). -/
def parseCommand (text : String) : Option Cmd :=
  match text.data with
  | '/' :: r0 =>
      let cmdCs := r0.takeWhile isWordChar
      if cmdCs.isEmpty then none else
      let r1 := r0.dropWhile isWordChar
      let r2 : Option (List Char) :=
        match r1 with
        | '@' :: r =>
            if (r.takeWhile isWordChar).isEmpty then none
            else some (r.dropWhile isWordChar)
        | _ => some r1
      match r2 with
      | none => none
      | some rest =>
          match parseCmdArgs rest with
          | none => none
          | some args => some { command := (String.mk cmdCs).toLower, args := args.trim }
  | _ => none

/-- The extraction `CommandHandler.extractFileData`, applied to a message’s media and
caption; the kinds are checked in source order.  An empty `photo` array
yields `null`. -/
def extractFileData (att : Option Attachment) (cap : Option String) : Option FileData :=
  match att with
  | none => none
  | some (.document fid fuid fsize mime) =>
      some { file_id := fid, file_type := "document", file_unique_id := fuid,
             file_size := fsize, caption := cap.getD "", mime_type := mime }
  | some (.photo sizes) =>
      match sizes.getLast? with
      | none => none
      | some p =>
          some { file_id := p.file_id, file_type := "photo", file_unique_id := p.file_unique_id,
                 file_size := p.file_size, width := some p.width, height := some p.height,
                 caption := cap.getD "" }
  | some (.video fid fuid fsize w h d mime) =>
      some { file_id := fid, file_type := "video", file_unique_id := fuid, file_size := fsize,
             width := some w, height := some h, duration := some d,
             caption := cap.getD "", mime_type := mime }
  | some (.audio fid fuid fsize d perf title mime) =>
      some { file_id := fid, file_type := "audio", file_unique_id := fuid, file_size := fsize,
             duration := some d, performer := perf, title := title,
             caption := cap.getD "", mime_type := mime }
  | some (.voice fid fuid fsize d mime) =>
      some { file_id := fid, file_type := "voice", file_unique_id := fuid, file_size := fsize,
             duration := some d, caption := cap.getD "", mime_type := mime }
  | some (.animation fid fuid fsize w h d mime) =>
      some { file_id := fid, file_type := "animation", file_unique_id := fuid, file_size := fsize,
             width := some w, height := some h, duration := some d,
             caption := cap.getD "", mime_type := mime }

/-- The `/post=(\S+)/` search of `handleStart`, at one position. -/
def postIdAt (cs : List Char) : Option (List Char) :=
  match cs with
  | 'p' :: 'o' :: 's' :: 't' :: '=' :: rest =>
      let tok := rest.takeWhile (fun c => !c.isWhitespace)
      if tok.isEmpty then none else some tok
  | _ => none

/-- The `/post=(\S+)/` search over the whole argument string. -/
def findPost : List Char → Option (List Char)
  | [] => none
  | c :: rest =>
      match postIdAt (c :: rest) with
      | some tok => some tok
      | none => findPost rest

/-- Reading `session.data.fileData`; a stale session without it spreads
`undefined` in JS, producing a record with no file fields, modelled by the
all-default `FileData`. -/
def dataFileData (d : SData) : FileData :=
  match alGet d "fileData" with
  | some (.file f) => f
  | _ => {}

/-- Reading `session.data.fileId`; a missing value is `undefined`, which
the template-literal key `file:${fileId}` renders as `"undefined"`. -/
def dataFileId (d : SData) : String :=
  match alGet d "fileId" with
  | some (.str s) => s
  | _ => "undefined"

/-- Indexing `params[i]`; a missing parameter is `undefined`, which every use site
(template literals, `switch` comparisons, key construction) treats exactly
like the string `"undefined"`. -/
def getParam (params : List String) (i : Nat) : String :=
  (params[i]?).getD "undefined"

/-! ### Message texts and keyboards -/

def getFileTypeEmoji (t : String) : String :=
  if t = "document" then "📄"
  else if t = "photo" then "📸"
  else if t = "video" then "🎬"
  else if t = "audio" then "🎵"
  else if t = "voice" then "🎤"
  else if t = "animation" then "📹"
  else "📁"

def shareLink (ctx : Ctx) (fileId : String) : String :=
  "https://t.me/" ++ ctx.botUsername ++ "?start=post=" ++ fileId

def welcomeText : String :=
  "🚀 *Welcome to FileStore Bot* 🚀\n\nStore and share files easily with this secure platform."

def welcomeKeyboard : Keyboard :=
  [[⟨"📂 My Files", "file:list:1"⟩, ⟨"📊 Statistics", "stats:view"⟩],
   [⟨"ℹ️ Help", "help:view"⟩]]

def helpText : String :=
  "🔍 *Available Commands:*\n\n" ++
  "/start - Begin your journey\n" ++
  "/help - Display this help message\n" ++
  "/files - Browse your stored files\n" ++
  "/stats - View usage statistics\n" ++
  "/cancel - Cancel current operation\n" ++
  "/save - Save a file (Admin only)\n" ++
  "/delete - Delete a file (Admin only)"

def categoriesKeyboard : Keyboard :=
  [[⟨"📄 Documents", "category:documents"⟩, ⟨"📸 Photos", "category:photos"⟩],
   [⟨"🎬 Videos", "category:videos"⟩, ⟨"🎵 Audio", "category:audio"⟩],
   [⟨"Cancel", "category:cancel"⟩]]

def savedText (ctx : Ctx) (category fileId : String) : String :=
  "✅ *File Saved Successfully!*\n\n📂 Category: *" ++ category ++
  "*\n📁 Access it using:\n`" ++ shareLink ctx fileId ++ "`"

def unrecognizedCmd (cmd : String) : String :=
  "Unrecognized command: /" ++ cmd ++ ". Use /help to see available commands."

def fileItemText (startIdx : Int) (idx : Nat) (f : FileRecord) : String :=
  toString (startIdx + (idx : Int) + 1) ++ ". " ++ getFileTypeEmoji f.fileData.file_type ++
  " *" ++ f.fileData.file_type ++ "* - " ++ localeDate f.createdAt ++ "\n" ++
  (if f.fileData.caption ≠ "" then "   Caption: " ++ capSnippet f.fileData.caption ++ "\n"
   else "") ++
  "   Views: " ++ toString f.accessCount ++ "\n\n"

def fileRows (pageFiles : List FileRecord) (startIdx : Int) : Keyboard :=
  pageFiles.enum.map (fun p =>
    [⟨"📤 Share #" ++ toString (startIdx + (p.1 : Int) + 1), "file:share:" ++ p.2.id⟩,
     ⟨"❌ Delete #" ++ toString (startIdx + (p.1 : Int) + 1), "file:delete:" ++ p.2.id⟩])

def paginationRow (page totalPages : Int) : List Button :=
  (if 1 < page then [⟨"⬅️ Previous", "page:files:" ++ toString (page - 1)⟩]
   else ([] : List Button)) ++
  (if page < totalPages then [⟨"➡️ Next", "page:files:" ++ toString (page + 1)⟩]
   else ([] : List Button))

def listKeyboard (pageFiles : List FileRecord) (startIdx page totalPages : Int) : Keyboard :=
  fileRows pageFiles startIdx ++
  (let pr := paginationRow page totalPages
   if pr.isEmpty then [] else [pr])

/-! ### Command handlers -/

/-- The result of a message handler: `thrown` marks a JS `TypeError`
escaping the handler (accessing `.trim()` on a missing `message.text`),
later caught by `TelegramBot.processUpdate`. -/
inductive HRes where
  | ok (db : Store) (effs : List Eff)
  | thrown (db : Store) (effs : List Eff)
deriving DecidableEq

def optCaption (c : String) : Option String := if c = "" then none else some c

/-- The `switch (file_type)` of `handleStart`’s delivery step. -/
def deliverFile (chatId : Int) (f : FileRecord) : Eff :=
  let cap := optCaption f.fileData.caption
  if f.fileData.file_type = "document" then .sendDocument chatId f.fileData.file_id cap
  else if f.fileData.file_type = "photo" then .sendPhoto chatId f.fileData.file_id cap
  else if f.fileData.file_type = "video" then .sendVideo chatId f.fileData.file_id cap
  else if f.fileData.file_type = "audio" then .sendAudio chatId f.fileData.file_id cap
  else if f.fileData.file_type = "voice" then .sendVoice chatId f.fileData.file_id cap
  else if f.fileData.file_type = "animation" then .sendAnimation chatId f.fileData.file_id cap
  else .sendMessage chatId "Unsupported file type." none

def handleStart (ctx : Ctx) (db : Store) (m : Msg) (args : String) : Store × List Eff :=
  match findPost args.data with
  | some tok =>
      let postId := String.mk tok
      match getFile db postId with
      | none =>
          (db, [.sendMessage m.chatId "❌ The requested file was not found or has been deleted." none])
      | some fileData =>
          let db1 := trackFileAccess db postId ctx.now
          (db1, [deliverFile m.chatId fileData])
  | none =>
      (db, [.sendMessage m.chatId welcomeText (some welcomeKeyboard)])

def handleHelp (db : Store) (m : Msg) : Store × List Eff :=
  (db, [.sendMessage m.chatId helpText none])

def handleSave (ctx : Ctx) (db : Store) (m : Msg) : Store × List Eff :=
  let userId := toString m.fromId
  if ¬ isAdmin ctx userId then
    (db, [.sendMessage m.chatId "❌ Unauthorized. Only admins can save files." none])
  else
    match m.reply_to_message with
    | none =>
        (db, [.sendMessage m.chatId "Please reply to a file message with /save to store it." none])
    | some fileMsg =>
        match extractFileData fileMsg.attachment fileMsg.caption with
        | none =>
            (db, [.sendMessage m.chatId "No valid file found in the replied message." none])
        | some fd =>
            let r := setState db userId "awaiting_file_category"
              [("messageId", .num fileMsg.message_id), ("fileData", .file fd)] ctx.now
            (r.1, [.sendMessage m.chatId
              "Please select a category for this file or type a custom category name:"
              (some categoriesKeyboard)])

def promptToSaveFile (ctx : Ctx) (db : Store) (m : Msg) : Store × List Eff :=
  match extractFileData m.attachment m.caption with
  | none => (db, [.sendMessage m.chatId "No valid file found in the message." none])
  | some fd =>
      let r := setState db (toString m.fromId) "awaiting_file_category"
        [("messageId", .num m.message_id), ("fileData", .file fd)] ctx.now
      (r.1, [.sendMessage m.chatId
        "I noticed you sent a file. Please select a category or type a custom category name:"
        (some categoriesKeyboard)])

def handleFiles (db : Store) (m : Msg) : Store × List Eff :=
  let userId := toString m.fromId
  let files := getUserFiles db userId
  if files.isEmpty then
    (db, [.sendMessage m.chatId "You don’t have any saved files yet." none])
  else
    let pageSize : Int := 5
    let totalPages : Int := ((files.length + 4) / 5 : Nat)
    let page : Int := 1
    let startIdx := (page - 1) * pageSize
    let endIdx := min (startIdx + pageSize) (files.length : Int)
    let pageFiles := jsSlice files startIdx endIdx
    let text := "📂 *Your Files* (" ++ toString files.length ++ " total)\n\n" ++
      String.join (pageFiles.enum.map (fun p => fileItemText startIdx p.1 p.2))
    (db, [.sendMessage m.chatId text (some (listKeyboard pageFiles startIdx page totalPages))])

def deleteConfirmText (f : FileRecord) : String :=
  "Are you sure you want to delete this file?\n\nType: " ++
  getFileTypeEmoji f.fileData.file_type ++ " " ++ f.fileData.file_type ++
  "\nCaption: " ++ (if f.fileData.caption ≠ "" then f.fileData.caption else "None") ++
  "\nViews: " ++ toString f.accessCount ++
  "\n\nType *confirm* to delete or *cancel* to abort."

def handleDelete (ctx : Ctx) (db : Store) (m : Msg) (args : String) : Store × List Eff :=
  let userId := toString m.fromId
  if args = "" then
    (db, [.sendMessage m.chatId
      "Please specify a file ID to delete or use the file list from /files command." none])
  else
    let fileId := args.trim
    match getFile db fileId with
    | none => (db, [.sendMessage m.chatId "File not found." none])
    | some file =>
        if ¬ isAdmin ctx userId ∧ file.savedBy ≠ userId then
          (db, [.sendMessage m.chatId "You don’t have permission to delete this file." none])
        else
          let r := setState db userId "awaiting_delete_confirm" [("fileId", .str fileId)] ctx.now
          (r.1, [.sendMessage m.chatId (deleteConfirmText file) none])

def statsCandidates (db : Store) : List FileRecord :=
  ((listFileKeys db).take 10).filterMap (fun k =>
    match alGet db.files k with
    | some f => if f.accessCount ≠ 0 then some f else none
    | none => none)

/-- The order induced by the comparator
`(b.accessCount || 0) - (a.accessCount || 0)`: views descending.  JS
`Array.prototype.sort` is stable, as is `insertionSort`, so the two agree
pointwise. -/
def viewsDescR (a b : FileRecord) : Prop := b.accessCount ≤ a.accessCount

instance : DecidableRel viewsDescR := fun a b => Nat.decLe b.accessCount a.accessCount

instance : IsTotal FileRecord viewsDescR :=
  ⟨fun a b => Nat.le_total b.accessCount a.accessCount⟩

instance : IsTrans FileRecord viewsDescR :=
  ⟨fun _ _ _ hab hbc => le_trans hbc hab⟩

def popularFiles (db : Store) : List FileRecord :=
  ((statsCandidates db).insertionSort viewsDescR).take 5

/-- The three aggregates the admin branch of `handleStats` reports. -/
def statsReport (db : Store) : Nat × Nat × List FileRecord :=
  ((getStats db).users.length,
   ((getStats db).actions.map Prod.snd).foldl (· + ·) 0,
   popularFiles db)

def adminStatsText (db : Store) : String :=
  let r := statsReport db
  let base := "📊 *Bot Statistics*\n\nTotal Users: " ++ toString r.1 ++
    "\nTotal Actions: " ++ toString r.2.1 ++ "\n\n"
  if r.2.2.isEmpty then base
  else base ++ "*Popular Files:*\n" ++
    String.join (r.2.2.enum.map (fun p =>
      toString (p.1 + 1) ++ ". " ++ getFileTypeEmoji p.2.fileData.file_type ++ " " ++
      (if p.2.fileData.caption ≠ "" then p.2.fileData.caption else "Unnamed") ++
      " - " ++ toString p.2.accessCount ++ " views\n"))

def handleStats (ctx : Ctx) (db : Store) (m : Msg) : Store × List Eff :=
  let userId := toString m.fromId
  if ¬ isAdmin ctx userId then
    let userFiles := getUserFiles db userId
    let r := getSession db userId ctx.now
    (r.1, [.sendMessage m.chatId
      ("📊 *Your Statistics*\n\nTotal Files: " ++ toString userFiles.length ++
       "\nJoined: " ++ localeDate r.2.createdAt ++
       "\nLast Active: " ++ localeDate r.2.lastActive) none])
  else
    (db, [.sendMessage m.chatId (adminStatsText db) none])

def handleCancel (ctx : Ctx) (db : Store) (m : Msg) : Store × List Eff :=
  let r := setState db (toString m.fromId) "idle" [] ctx.now
  (r.1, [.sendMessage m.chatId "Current operation canceled." none])

def handleFileCategoryInput (ctx : Ctx) (db : Store) (m : Msg) (session : Session) : HRes :=
  match m.msgText with
  | none => .thrown db []
  | some t =>
      let category := t.trim
      if category.toLower = "cancel" then
        let r := setState db (toString m.fromId) "idle" [] ctx.now
        .ok r.1 [.sendMessage m.chatId "File saving canceled." none]
      else
        let fd := dataFileData session.data
        let r1 := saveFile db fd (toString m.fromId) category ctx.freshId ctx.now
        let r2 := setState r1.1 (toString m.fromId) "idle" [] ctx.now
        .ok r2.1 [.sendMessage m.chatId (savedText ctx category r1.2)
          (some [[⟨"🔗 Copy Link", "file:share:" ++ r1.2⟩]])]

def handleDeleteConfirmation (ctx : Ctx) (db : Store) (m : Msg) (session : Session) : HRes :=
  match m.msgText with
  | none => .thrown db []
  | some t =>
      let text := t.trim.toLower
      let fileId := dataFileId session.data
      let r := setState db (toString m.fromId) "idle" [] ctx.now
      if text = "confirm" then
        let d := deleteFile ctx.adminIds r.1 fileId (toString m.fromId)
        if d.2 then .ok d.1 [.sendMessage m.chatId "✅ File deleted successfully." none]
        else .ok d.1 [.sendMessage m.chatId "❌ Failed to delete the file. Please try again later." none]
      else .ok r.1 [.sendMessage m.chatId "File deletion canceled." none]

def processNaturalLanguage (ctx : Ctx) (db : Store) (m : Msg) : Store × List Eff :=
  let text := m.msgText.getD ""
  if text = "" then (db, [])
  else
    let lowerText := text.toLower
    if strIncludes lowerText "help" || strIncludes lowerText "how to" then
      handleHelp db m
    else if strIncludes lowerText "my files" || strIncludes lowerText "show files" then
      handleFiles db m
    else if strIncludes lowerText "stats" || strIncludes lowerText "statistics" then
      handleStats ctx db m
    else if strIncludes lowerText "hello" || strIncludes lowerText "hi"
        || strIncludes lowerText "hey" then
      (db, [.sendMessage m.chatId
        "Hello! I’m a file storage bot. You can use me to save and share files easily. Use /help to see what I can do."
        none])
    else
      (db, [.sendMessage m.chatId
        "I’m not sure what you’re asking. Use /help to see available commands." none])

/-! ### Callback handlers -/

def handleDeleteCallback (ctx : Ctx) (db : Store) (q : CbQuery) (params : List String) :
    Store × List Eff :=
  let fileId := getParam params 0
  let userId := toString q.fromId
  match getFile db fileId with
  | none =>
      (db, [.answerCallbackQuery q.id none,
            .editMessageText q.message.chatId q.message.message_id "This file no longer exists." none])
  | some file =>
      if ¬ isAdmin ctx userId ∧ file.savedBy ≠ userId then
        (db, [.answerCallbackQuery q.id none,
              .sendMessage q.message.chatId "You don’t have permission to delete this file." none])
      else
        let kb : Keyboard :=
          [[⟨"✅ Yes, delete it", "confirm:delete:" ++ fileId⟩, ⟨"❌ No, keep it", "confirm:cancel"⟩]]
        let text := "Are you sure you want to delete this file?\n\nType: " ++
          getFileTypeEmoji file.fileData.file_type ++ " " ++ file.fileData.file_type ++
          "\nCaption: " ++ (if file.fileData.caption ≠ "" then file.fileData.caption else "None") ++
          "\nViews: " ++ toString file.accessCount
        (db, [.answerCallbackQuery q.id none,
              .editMessageText q.message.chatId q.message.message_id text (some kb)])

/-- The list-case body of `handleFileCallback`, after the callback has
been answered: re-render the caller’s file list at `page` by editing the
message. -/
def fileListEdit (db : Store) (q : CbQuery) (page : Int) : List Eff :=
  let userId := toString q.fromId
  let files := getUserFiles db userId
  if files.isEmpty then
    [.editMessageText q.message.chatId q.message.message_id "You don’t have any saved files." none]
  else
    let pageSize : Int := 5
    let totalPages : Int := ((files.length + 4) / 5 : Nat)
    let startIdx := (page - 1) * pageSize
    let endIdx := min (startIdx + pageSize) (files.length : Int)
    let pageFiles := jsSlice files startIdx endIdx
    let text := "📂 *Your Files* (" ++ toString files.length ++ " total) - Page " ++
      toString page ++ "/" ++ toString totalPages ++ "\n\n" ++
      String.join (pageFiles.enum.map (fun p => fileItemText startIdx p.1 p.2))
    [.editMessageText q.message.chatId q.message.message_id text
      (some (listKeyboard pageFiles startIdx page totalPages))]

def handleFileCallback (ctx : Ctx) (db : Store) (q : CbQuery) (params : List String) :
    Store × List Eff :=
  let action := getParam params 0
  let fileId := getParam params 1
  if action = "share" then
    match getFile db fileId with
    | none =>
        (db, [.answerCallbackQuery q.id none,
              .editMessageText q.message.chatId q.message.message_id "This file no longer exists." none])
    | some _ =>
        (db, [.answerCallbackQuery q.id none,
              .sendMessage q.message.chatId
                ("🔗 *File Sharing Link*\n\nShare this link to give access to your file:\n`" ++
                 shareLink ctx fileId ++ "`") none])
  else if action = "delete" then
    let r := handleDeleteCallback ctx db q [fileId]
    (r.1, .answerCallbackQuery q.id none :: r.2)
  else if action = "list" then
    let page : Int :=
      match jsParseInt (getParam params 1) with
      | none => 1
      | some n => if n = 0 then 1 else n
    (db, .answerCallbackQuery q.id none :: fileListEdit db q page)
  else
    (db, [.answerCallbackQuery q.id none,
          .answerCallbackQuery q.id (some "Unknown file action.")])

def handlePageCallback (ctx : Ctx) (db : Store) (q : CbQuery) (params : List String) :
    Store × List Eff :=
  let listType := getParam params 0
  let pageStr := getParam params 1
  match jsParseInt pageStr with
  | none => (db, [.answerCallbackQuery q.id (some "Invalid page number.")])
  | some page =>
      if page < 1 then (db, [.answerCallbackQuery q.id (some "Invalid page number.")])
      else if listType = "files" then
        let r := handleFileCallback ctx db q ["list", toString page]
        (r.1, .answerCallbackQuery q.id none :: r.2)
      else
        (db, [.answerCallbackQuery q.id none,
              .answerCallbackQuery q.id (some "Unknown list type.")])

def handleCategoryCallback (ctx : Ctx) (db : Store) (q : CbQuery) (params : List String) :
    Store × List Eff :=
  let category := getParam params 0
  let userId := toString q.fromId
  let r := getSession db userId ctx.now
  if r.2.state ≠ "awaiting_file_category" then
    (r.1, [.answerCallbackQuery q.id (some "This action is no longer valid.")])
  else if category = "cancel" then
    let r2 := setState r.1 userId "idle" [] ctx.now
    (r2.1, [.answerCallbackQuery q.id none,
            .editMessageText q.message.chatId q.message.message_id "File saving canceled." none])
  else
    let fd := dataFileData r.2.data
    let r1 := saveFile r.1 fd userId category ctx.freshId ctx.now
    let r2 := setState r1.1 userId "idle" [] ctx.now
    (r2.1, [.answerCallbackQuery q.id none,
            .editMessageText q.message.chatId q.message.message_id
              (savedText ctx category r1.2)
              (some [[⟨"🔗 Copy Link", "file:share:" ++ r1.2⟩]])])

def handleConfirmCallback (ctx : Ctx) (db : Store) (q : CbQuery) (params : List String) :
    Store × List Eff :=
  let action := getParam params 0
  let actionParams := params.tail
  let userId := toString q.fromId
  if action = "delete" then
    let fileId := getParam actionParams 0
    let d := deleteFile ctx.adminIds db fileId userId
    if d.2 then
      (d.1, [.answerCallbackQuery q.id none,
             .editMessageText q.message.chatId q.message.message_id "✅ File deleted successfully." none])
    else
      (d.1, [.answerCallbackQuery q.id none,
             .editMessageText q.message.chatId q.message.message_id
               "❌ Failed to delete the file. Please try again later." none])
  else if action = "cancel" then
    (db, [.answerCallbackQuery q.id none,
          .editMessageText q.message.chatId q.message.message_id "Action canceled." none])
  else
    (db, [.answerCallbackQuery q.id none,
          .editMessageText q.message.chatId q.message.message_id "Unknown confirmation action." none])

/-! ### Dispatch -/

def commandDispatch (ctx : Ctx) (db : Store) (m : Msg) (c : Cmd) : Store × List Eff :=
  if c.command = "start" then handleStart ctx db m c.args
  else if c.command = "help" then handleHelp db m
  else if c.command = "save" then handleSave ctx db m
  else if c.command = "files" then handleFiles db m
  else if c.command = "delete" then handleDelete ctx db m c.args
  else if c.command = "stats" then handleStats ctx db m
  else if c.command = "cancel" then handleCancel ctx db m
  else (db, [.sendMessage m.chatId (unrecognizedCmd c.command) none])

/-- The tail of `processMessage` reached when no state handler fires:
command parsing, the admin attachment prompt, and the NLP fallback. -/
def idleFlow (ctx : Ctx) (db : Store) (m : Msg) : Store × List Eff :=
  let text := m.msgText.getD ""
  match parseCommand text with
  | some c => commandDispatch ctx db m c
  | none =>
      if m.attachment.isSome ∧ isAdmin ctx (toString m.fromId) then
        promptToSaveFile ctx db m
      else
        processNaturalLanguage ctx db m

def processMessage (ctx : Ctx) (db : Store) (m : Msg) : HRes :=
  let userId := toString m.fromId
  let text := m.msgText.getD ""
  let db1 := trackAction ctx db userId "message"
  let r := getSession db1 userId ctx.now
  if r.2.state ≠ "idle" ∧ text.toLower = "/cancel" then
    let h := handleCancel ctx r.1 m
    .ok h.1 h.2
  else if r.2.state = "awaiting_file_category" then
    handleFileCategoryInput ctx r.1 m r.2
  else if r.2.state = "awaiting_delete_confirm" then
    handleDeleteConfirmation ctx r.1 m r.2
  else
    let h := idleFlow ctx r.1 m
    .ok h.1 h.2

def processCallbackQuery (ctx : Ctx) (db : Store) (q : CbQuery) : Store × List Eff :=
  let userId := toString q.fromId
  let db1 := trackAction ctx db userId "callback_query"
  let parts := splitColon q.data
  let action := parts.headD ""
  let params := parts.tail
  if action = "file" then handleFileCallback ctx db1 q params
  else if action = "page" then handlePageCallback ctx db1 q params
  else if action = "category" then handleCategoryCallback ctx db1 q params
  else if action = "delete" then handleDeleteCallback ctx db1 q params
  else if action = "confirm" then handleConfirmCallback ctx db1 q params
  else (db1, [.answerCallbackQuery q.id (some "Sorry, I couldn’t process this action.")])

/-- The router `TelegramBot.processUpdate`, with its catch-all error handler. -/
def processUpdate (ctx : Ctx) (db : Store) (u : Update) : Store × List Eff :=
  match u with
  | .message m =>
      match processMessage ctx db m with
      | .ok d e => (d, e)
      | .thrown d e =>
          (d, e ++ [.sendMessage m.chatId "Sorry, an error occurred while processing your request." none])
  | .callback q => processCallbackQuery ctx db q
  | .other => (db, [])

/-! ### HTTP boundary (`fetch`) -/

/-- The request body as the worker sees it after `request.json()`:
either a parse failure or a parsed update object. -/
inductive ReqBody where
  | malformed
  | parsed (u : Update)
deriving DecidableEq

structure HttpReq where
  method : String
  body : ReqBody
deriving DecidableEq

structure HttpResp where
  status : Nat
  body : String
deriving DecidableEq

def fetchHandler (ctx : Ctx) (db : Store) (req : HttpReq) : HttpResp × Store × List Eff :=
  if req.method ≠ "POST" then (⟨405, "Method Not Allowed"⟩, db, [])
  else
    match req.body with
    | .malformed => (⟨400, "Invalid Request Body"⟩, db, [])
    | .parsed u =>
        let r := processUpdate ctx db u
        (⟨200, "OK"⟩, r.1, r.2)

/-! ### Observation helpers for the theorems -/

def ownerIndex (db : Store) (uid : String) : List String :=
  (alGet db.userFiles (userFilesKey uid)).getD []

def catIndex (db : Store) (cat : String) : List String :=
  (alGet db.catFiles (categoryKey cat)).getD []

/-- The state `getSession` would report for a user: the stored state, or
`idle` for the lazily-created default. -/
def sessionStateView (db : Store) (uid : String) : String :=
  ((alGet db.sessions (sessionKey uid)).map Session.state).getD "idle"

def sessionDataView (db : Store) (uid : String) : SData :=
  ((alGet db.sessions (sessionKey uid)).map Session.data).getD []

/-- How many times a trace acknowledges callback query `qid`. -/
def countAnswers (effs : List Eff) (qid : String) : Nat :=
  effs.countP (fun e =>
    match e with
    | .answerCallbackQuery i _ => decide (i = qid)
    | _ => false)

/-- Modelled from the spec’s words (§4.2 `stats`): the top 5 most-accessed
files by `accessCount` descending, ties broken by a stable order, over all
stored records.  Stated only to compare with the code’s `popularFiles`. -/
def specPopularFiles (db : Store) : List FileRecord :=
  (((listFileKeys db).filterMap (fun k => alGet db.files k)).insertionSort viewsDescR).take 5

/-- The spec-side reading of the `/stats` admin report (claim C2): user and
action aggregates as the code computes them, and the top 5 over all
stored records. -/
def specStatsReport (db : Store) : Nat × Nat × List FileRecord :=
  ((getStats db).users.length,
   ((getStats db).actions.map Prod.snd).foldl (· + ·) 0,
   specPopularFiles db)

/-! ### Concrete fixtures used by witnesses and counterexamples -/

def ctx0 : Ctx :=
  { adminIds := ["7"], botUsername := "TestBot", analyticsEnabled := true,
    now := 1000, today := "2026-10-12", freshId := "aa11" }

def fdDoc : FileData :=
  { file_id := "F1", file_type := "document", file_unique_id := "U1",
    file_size := 3, caption := "hello" }

def rec0 : FileRecord :=
  { id := "abc", fileData := fdDoc, savedBy := "9", category := "general",
    createdAt := 5, accessCount := 2, lastAccessed := some 6 }

def db0 : Store :=
  { files := [("file:abc", rec0)],
    userFiles := [("user:files:9", ["abc"])],
    catFiles := [("category:general", ["abc"])] }

/-! ### The claims -/

/-- C1.  `FileManager.deleteFile(id, requesterId)` returns `false` and
performs no store mutation unless the requester is the record’s owner
(`savedBy`) or an administrator; when permitted, it removes the primary
record and the id’s entries from the owner index and the category index,
and returns `true`. -/
theorem claim1_deleteFile_auth (admins : List String) (db : Store) (fileId userId : String)
    (file : FileRecord) (hget : getFile db fileId = some file) :
    (¬ (userId = file.savedBy ∨ userId ∈ admins) →
        deleteFile admins db fileId userId = (db, false)) ∧
    ((userId = file.savedBy ∨ userId ∈ admins) →
        (deleteFile admins db fileId userId).2 = true ∧
        getFile (deleteFile admins db fileId userId).1 fileId = none ∧
        fileId ∉ ownerIndex (deleteFile admins db fileId userId).1 file.savedBy ∧
        fileId ∉ catIndex (deleteFile admins db fileId userId).1 file.category) := by
  constructor
  · intro h
    push_neg at h
    have hcond : userId ∉ admins ∧ file.savedBy ≠ userId := ⟨h.2, Ne.symm h.1⟩
    unfold deleteFile
    rw [hget]
    simp only [if_pos hcond]
  · intro h
    have hcond : ¬ (userId ∉ admins ∧ file.savedBy ≠ userId) := by
      rcases h with h | h
      · intro hc; exact hc.2 h.symm
      · intro hc; exact hc.1 h
    unfold deleteFile
    rw [hget]
    simp only [if_neg hcond]
    refine ⟨by trivial, ?_, ?_, ?_⟩
    · show alGet (alDel db.files (fileKey fileId)) (fileKey fileId) = none
      exact alGet_alDel_self _ _
    · show fileId ∉ (alGet (alSet db.userFiles (userFilesKey file.savedBy) _)
        (userFilesKey file.savedBy)).getD []
      rw [alGet_alSet_self]
      intro hmem
      simp only [Option.getD_some, List.mem_filter, decide_eq_true_eq] at hmem
      exact hmem.2 rfl
    · show fileId ∉ (alGet (alSet _ (categoryKey file.category) _)
        (categoryKey file.category)).getD []
      rw [alGet_alSet_self]
      intro hmem
      simp only [Option.getD_some, List.mem_filter, decide_eq_true_eq] at hmem
      exact hmem.2 rfl

/-- Witness for C1 at a concrete store: requester `"5"` (neither owner
`"9"` nor admin `"7"`) is refused without mutation; owner `"9"` deletes
the record and both index entries. -/
theorem claim1_witness :
    (getFile db0 "abc" = some rec0 ∧
     ¬ (("5" : String) = rec0.savedBy ∨ ("5" : String) ∈ (["7"] : List String)) ∧
     deleteFile ["7"] db0 "abc" "5" = (db0, false)) ∧
    (((("9" : String) = rec0.savedBy ∨ ("9" : String) ∈ (["7"] : List String)) ∧
     (deleteFile ["7"] db0 "abc" "9").2 = true ∧
     getFile (deleteFile ["7"] db0 "abc" "9").1 "abc" = none ∧
     "abc" ∉ ownerIndex (deleteFile ["7"] db0 "abc" "9").1 rec0.savedBy ∧
     "abc" ∉ catIndex (deleteFile ["7"] db0 "abc" "9").1 rec0.category)) :=
  ⟨⟨by decide, by decide,
      (claim1_deleteFile_auth ["7"] db0 "abc" "5" rec0 (by decide)).1 (by decide)⟩,
   ⟨by decide,
      (claim1_deleteFile_auth ["7"] db0 "abc" "9" rec0 (by decide)).2 (by decide)⟩⟩

/-- C9.  For a file id with no stored record, `deleteFile` returns `false`
and leaves the store untouched, for every requester, administrators
included. -/
theorem claim9_delete_missing (admins : List String) (db : Store) (fileId : String)
    (h : getFile db fileId = none) :
    ∀ userId, deleteFile admins db fileId userId = (db, false) := by
  intro userId
  unfold deleteFile
  rw [h]

/-- Witness for C9: an admin requester against an id absent from the
store. -/
theorem claim9_witness :
    getFile db0 "zzz" = none ∧ deleteFile ["7"] db0 "zzz" "7" = (db0, false) :=
  ⟨by decide, claim9_delete_missing ["7"] db0 "zzz" (by decide) "7"⟩

/-- C4.  `SessionManager.setState(userId, state, data)` fully replaces the
session’s `state` and `data` (no key of the prior data survives), bumps
`lastActive` to the current clock, persists the session, and returns the
updated session. -/
theorem claim4_setState_replaces (db : Store) (uid st : String) (d : SData) (now : Nat) :
    (setState db uid st d now).2.state = st ∧
    (setState db uid st d now).2.data = d ∧
    (setState db uid st d now).2.lastActive = now ∧
    alGet (setState db uid st d now).1.sessions (sessionKey uid) =
      some (setState db uid st d now).2 ∧
    (∀ k, alGet d k = none → alGet (setState db uid st d now).2.data k = none) := by
  unfold setState updateSession getSession
  cases hs : alGet db.sessions (sessionKey uid) <;>
    simp [alGet_alSet_self]

/-- Witness for C4 (the quantified no-stale-key conclusion discharged at a
concrete key): a session holding `fileData` transitions to a smaller data
object and retains nothing. -/
theorem claim4_witness :
    alGet ([("fileId", DVal.str "abc")] : SData) "fileData" = none ∧
    alGet (setState
        { db0 with sessions := [("session:9",
            { userId := "9", state := "awaiting_file_category",
              data := [("messageId", DVal.num 3), ("fileData", DVal.file fdDoc)],
              createdAt := 1, lastActive := 2 })] }
        "9" "awaiting_delete_confirm" [("fileId", DVal.str "abc")] 1000).2.data "fileData" = none :=
  ⟨by decide,
   (claim4_setState_replaces
      { db0 with sessions := [("session:9",
          { userId := "9", state := "awaiting_file_category",
            data := [("messageId", DVal.num 3), ("fileData", DVal.file fdDoc)],
            createdAt := 1, lastActive := 2 })] }
      "9" "awaiting_delete_confirm" [("fileId", DVal.str "abc")] 1000).2.2.2.2
     "fileData" (by decide)⟩

/-- C5.  `FileManager.trackFileAccess(id)` on an existing record increments
`accessCount` by exactly 1 and moves `lastAccessed` forward (to the
current clock, hence `≥` the previous stamp whenever the clock has not
gone backwards); on a missing record it is a no-op, not an error. -/
theorem claim5_trackFileAccess (db : Store) (fileId : String) (now : Nat) :
    (getFile db fileId = none → trackFileAccess db fileId now = db) ∧
    (∀ f, getFile db fileId = some f →
      getFile (trackFileAccess db fileId now) fileId =
        some { f with accessCount := f.accessCount + 1, lastAccessed := some now } ∧
      (∀ t, f.lastAccessed = some t → t ≤ now →
        ∃ f' u, getFile (trackFileAccess db fileId now) fileId = some f' ∧
          f'.lastAccessed = some u ∧ t ≤ u)) := by
  constructor
  · intro h
    unfold trackFileAccess
    rw [h]
  · intro f hf
    have hg : getFile (trackFileAccess db fileId now) fileId =
        some { f with accessCount := f.accessCount + 1, lastAccessed := some now } := by
      unfold trackFileAccess
      rw [hf]
      show alGet (alSet db.files (fileKey fileId) _) (fileKey fileId) = _
      exact alGet_alSet_self _ _ _
    exact ⟨hg, fun t _ htn => ⟨_, now, hg, rfl, htn⟩⟩

/-- Witness for C5: the missing-id no-op and the increment on `rec0`
(`accessCount` 2 → 3, `lastAccessed` 6 → 1000). -/
theorem claim5_witness :
    (getFile db0 "zzz" = none ∧ trackFileAccess db0 "zzz" 1000 = db0) ∧
    (getFile db0 "abc" = some rec0 ∧
     getFile (trackFileAccess db0 "abc" 1000) "abc" =
       some { rec0 with accessCount := rec0.accessCount + 1, lastAccessed := some 1000 } ∧
     ∃ f' u, getFile (trackFileAccess db0 "abc" 1000) "abc" = some f' ∧
       f'.lastAccessed = some u ∧ 6 ≤ u) :=
  ⟨⟨by decide, (claim5_trackFileAccess db0 "zzz" 1000).1 (by decide)⟩,
   ⟨by decide,
    ((claim5_trackFileAccess db0 "abc" 1000).2 rec0 (by decide)).1,
    ((claim5_trackFileAccess db0 "abc" 1000).2 rec0 (by decide)).2 6 (by decide) (by decide)⟩⟩

/-- C10.  A `category:*` callback arriving while the sender’s session is
not in `awaiting_file_category` is only acknowledged ("no longer valid"):
no file record is saved, no index is touched, and the session’s state and
data are unchanged. -/
theorem claim10_category_stale (ctx : Ctx) (db : Store) (q : CbQuery) (params : List String)
    (h : sessionStateView db (toString q.fromId) ≠ "awaiting_file_category") :
    (handleCategoryCallback ctx db q params).2 =
      [Eff.answerCallbackQuery q.id (some "This action is no longer valid.")] ∧
    (handleCategoryCallback ctx db q params).1.files = db.files ∧
    (handleCategoryCallback ctx db q params).1.userFiles = db.userFiles ∧
    (handleCategoryCallback ctx db q params).1.catFiles = db.catFiles ∧
    sessionStateView (handleCategoryCallback ctx db q params).1 (toString q.fromId) =
      sessionStateView db (toString q.fromId) ∧
    sessionDataView (handleCategoryCallback ctx db q params).1 (toString q.fromId) =
      sessionDataView db (toString q.fromId) := by
  unfold handleCategoryCallback getSession
  cases hs : alGet db.sessions (sessionKey (toString q.fromId)) with
  | none =>
      have hidle : (("idle" : String) = "awaiting_file_category") = False := by decide
      simp [hs, hidle, sessionStateView, sessionDataView, alGet_alSet_self]
  | some s =>
      have hstate : s.state ≠ "awaiting_file_category" := by
        simpa [sessionStateView, hs] using h
      simp [hs, hstate, sessionStateView, sessionDataView]

/-- Witness for C10: a `category:documents` press from a user whose
session sits in `awaiting_delete_confirm`. -/
theorem claim10_witness :
    sessionStateView
        { db0 with sessions := [("session:9",
            { userId := "9", state := "awaiting_delete_confirm",
              data := [("fileId", DVal.str "abc")], createdAt := 1, lastActive := 2 })] }
        "9" ≠ "awaiting_file_category" ∧
    (handleCategoryCallback ctx0
        { db0 with sessions := [("session:9",
            { userId := "9", state := "awaiting_delete_confirm",
              data := [("fileId", DVal.str "abc")], createdAt := 1, lastActive := 2 })] }
        ⟨"Q9", 9, "category:documents", ⟨1, 2⟩⟩ ["documents"]).2 =
      [Eff.answerCallbackQuery "Q9" (some "This action is no longer valid.")] :=
  ⟨by decide,
   (claim10_category_stale ctx0
      { db0 with sessions := [("session:9",
          { userId := "9", state := "awaiting_delete_confirm",
            data := [("fileId", DVal.str "abc")], createdAt := 1, lastActive := 2 })] }
      ⟨"Q9", 9, "category:documents", ⟨1, 2⟩⟩ ["documents"] (by decide)).1⟩

/-- C6.  `/start` with a retrieval token `post=<id>` (`post=` followed by
non-whitespace): an unresolved id gets the "not found" reply with no other
action; a resolved record is first counted via `trackFileAccess` and then
delivered through the Messenger operation matching its kind, with the
caption forwarded exactly when non-empty. -/
theorem claim6_start_retrieval (ctx : Ctx) (db : Store) (m : Msg) (args : String)
    (tok : List Char) (htok : findPost args.data = some tok) :
    (getFile db (String.mk tok) = none →
      handleStart ctx db m args =
        (db, [Eff.sendMessage m.chatId
          "❌ The requested file was not found or has been deleted." none])) ∧
    (∀ f, getFile db (String.mk tok) = some f →
      (handleStart ctx db m args).1 = trackFileAccess db (String.mk tok) ctx.now ∧
      (handleStart ctx db m args).2 = [deliverFile m.chatId f] ∧
      (f.fileData.file_type = "document" →
        deliverFile m.chatId f =
          .sendDocument m.chatId f.fileData.file_id (optCaption f.fileData.caption)) ∧
      (f.fileData.file_type = "photo" →
        deliverFile m.chatId f =
          .sendPhoto m.chatId f.fileData.file_id (optCaption f.fileData.caption)) ∧
      (f.fileData.file_type = "video" →
        deliverFile m.chatId f =
          .sendVideo m.chatId f.fileData.file_id (optCaption f.fileData.caption)) ∧
      (f.fileData.file_type = "audio" →
        deliverFile m.chatId f =
          .sendAudio m.chatId f.fileData.file_id (optCaption f.fileData.caption)) ∧
      (f.fileData.file_type = "voice" →
        deliverFile m.chatId f =
          .sendVoice m.chatId f.fileData.file_id (optCaption f.fileData.caption)) ∧
      (f.fileData.file_type = "animation" →
        deliverFile m.chatId f =
          .sendAnimation m.chatId f.fileData.file_id (optCaption f.fileData.caption)) ∧
      (f.fileData.caption ≠ "" → optCaption f.fileData.caption = some f.fileData.caption) ∧
      (f.fileData.caption = "" → optCaption f.fileData.caption = none)) := by
  constructor
  · intro hnone
    simp [handleStart, htok, hnone]
  · intro f hsome
    have hpair : handleStart ctx db m args =
        (trackFileAccess db (String.mk tok) ctx.now, [deliverFile m.chatId f]) := by
      simp [handleStart, htok, hsome]
    refine ⟨by rw [hpair], by rw [hpair], ?_, ?_, ?_, ?_, ?_, ?_, ?_, ?_⟩
    · intro ht; simp [deliverFile, ht]
    · intro ht; simp [deliverFile, ht]
    · intro ht; simp [deliverFile, ht]
    · intro ht; simp [deliverFile, ht]
    · intro ht; simp [deliverFile, ht]
    · intro ht; simp [deliverFile, ht]
    · intro hc; simp [optCaption, hc]
    · intro hc; simp [optCaption, hc]

/-- Witness for C6: `/start post=zzz` is refused against `db0`, and
`/start post=abc` increments the counter and delivers the stored document
with its caption. -/
theorem claim6_witness :
    (findPost ("post=zzz" : String).data = some ("zzz" : String).data ∧
     getFile db0 (String.mk ("zzz" : String).data) = none ∧
     handleStart ctx0 db0
       ⟨1, 5, 1, some "/start post=zzz", none, none, none⟩ "post=zzz" =
       (db0, [Eff.sendMessage 1
         "❌ The requested file was not found or has been deleted." none])) ∧
    (findPost ("post=abc" : String).data = some ("abc" : String).data ∧
     getFile db0 (String.mk ("abc" : String).data) = some rec0 ∧
     (handleStart ctx0 db0
        ⟨1, 5, 1, some "/start post=abc", none, none, none⟩ "post=abc").1 =
       trackFileAccess db0 (String.mk ("abc" : String).data) ctx0.now ∧
     (handleStart ctx0 db0
        ⟨1, 5, 1, some "/start post=abc", none, none, none⟩ "post=abc").2 =
       [deliverFile 1 rec0] ∧
     deliverFile 1 rec0 =
       .sendDocument 1 rec0.fileData.file_id (optCaption rec0.fileData.caption) ∧
     optCaption rec0.fileData.caption = some rec0.fileData.caption) :=
  ⟨⟨by decide, by decide,
     (claim6_start_retrieval ctx0 db0
        ⟨1, 5, 1, some "/start post=zzz", none, none, none⟩ "post=zzz"
        ("zzz" : String).data (by decide)).1 (by decide)⟩,
   by
     have h := (claim6_start_retrieval ctx0 db0
        ⟨1, 5, 1, some "/start post=abc", none, none, none⟩ "post=abc"
        ("abc" : String).data (by decide)).2 rec0 (by decide)
     exact ⟨by decide, by decide, h.1, h.2.1, h.2.2.1 (by decide),
       h.2.2.2.2.2.2.2.2.1 (by decide)⟩⟩

/-- C7.  The HTTP boundary: a non-POST request is rejected with the fixed
status 405; a POST whose body fails to parse is rejected with the fixed
status 400; every other POST is acknowledged `"OK"`/200 no matter what the
dispatched processing does. -/
theorem claim7_http_boundary (ctx : Ctx) (db : Store) (req : HttpReq) :
    (req.method ≠ "POST" →
      fetchHandler ctx db req = (⟨405, "Method Not Allowed"⟩, db, [])) ∧
    (req.method = "POST" → req.body = .malformed →
      fetchHandler ctx db req = (⟨400, "Invalid Request Body"⟩, db, [])) ∧
    (∀ u, req.method = "POST" → req.body = .parsed u →
      (fetchHandler ctx db req).1 = ⟨200, "OK"⟩) := by
  refine ⟨?_, ?_, ?_⟩
  · intro h
    unfold fetchHandler
    rw [if_pos h]
  · intro hm hb
    unfold fetchHandler
    rw [if_neg (by simp [hm]), hb]
  · intro u hm hb
    unfold fetchHandler
    rw [if_neg (by simp [hm]), hb]

/-- Witness for C7 at three concrete requests: a GET, a POST with an
unparsable body, and a POST carrying a real `/help` message update (the
acknowledgment is `"OK"`/200 even though a full dispatch runs). -/
theorem claim7_witness :
    (("GET" : String) ≠ "POST" ∧
     fetchHandler ctx0 db0 ⟨"GET", .malformed⟩ = (⟨405, "Method Not Allowed"⟩, db0, [])) ∧
    fetchHandler ctx0 db0 ⟨"POST", .malformed⟩ = (⟨400, "Invalid Request Body"⟩, db0, []) ∧
    (fetchHandler ctx0 db0
      ⟨"POST", .parsed (.message ⟨1, 5, 1, some "/help", none, none, none⟩)⟩).1 =
      ⟨200, "OK"⟩ :=
  ⟨⟨by decide, (claim7_http_boundary ctx0 db0 ⟨"GET", .malformed⟩).1 (by decide)⟩,
   (claim7_http_boundary ctx0 db0 ⟨"POST", .malformed⟩).2.1 rfl rfl,
   (claim7_http_boundary ctx0 db0
      ⟨"POST", .parsed (.message ⟨1, 5, 1, some "/help", none, none, none⟩)⟩).2.2
     (.message ⟨1, 5, 1, some "/help", none, none, none⟩) rfl rfl⟩

/-! Counting acknowledgments per callback handler (for C3). -/

theorem countAnswers_cons_self (l : List Eff) (qid : String) (t : Option String) :
    countAnswers (Eff.answerCallbackQuery qid t :: l) qid = countAnswers l qid + 1 := by
  simp [countAnswers, List.countP_cons]

theorem countAnswers_handleDeleteCallback (ctx : Ctx) (db : Store) (q : CbQuery)
    (params : List String) :
    countAnswers (handleDeleteCallback ctx db q params).2 q.id = 1 := by
  simp only [handleDeleteCallback]
  cases hf : getFile db (getParam params 0) with
  | none => simp [hf, countAnswers]
  | some file =>
      simp only [hf]
      split <;> simp [countAnswers]

theorem countAnswers_fileListEdit (db : Store) (q : CbQuery) (page : Int) :
    countAnswers (fileListEdit db q page) q.id = 0 := by
  simp only [fileListEdit]
  split <;> simp [countAnswers]

theorem countAnswers_handleFileCallback_bound (ctx : Ctx) (db : Store) (q : CbQuery)
    (params : List String) :
    1 ≤ countAnswers (handleFileCallback ctx db q params).2 q.id ∧
    countAnswers (handleFileCallback ctx db q params).2 q.id ≤ 2 := by
  simp only [handleFileCallback]
  split
  · cases hf : getFile db (getParam params 1) <;> simp [hf, countAnswers]
  · split
    · simp only []
      rw [countAnswers_cons_self, countAnswers_handleDeleteCallback]
      omega
    · split
      · simp only []
        rw [countAnswers_cons_self, countAnswers_fileListEdit]
        omega
      · simp [countAnswers]

theorem countAnswers_handleFileCallback_list (ctx : Ctx) (db : Store) (q : CbQuery)
    (s : String) :
    countAnswers (handleFileCallback ctx db q ["list", s]).2 q.id = 1 := by
  simp only [handleFileCallback]
  have h0 : getParam ["list", s] 0 = "list" := rfl
  rw [h0, if_neg (by decide), if_neg (by decide), if_pos rfl]
  rw [countAnswers_cons_self, countAnswers_fileListEdit]

theorem countAnswers_handlePageCallback_bound (ctx : Ctx) (db : Store) (q : CbQuery)
    (params : List String) :
    1 ≤ countAnswers (handlePageCallback ctx db q params).2 q.id ∧
    countAnswers (handlePageCallback ctx db q params).2 q.id ≤ 2 := by
  simp only [handlePageCallback]
  cases hp : jsParseInt (getParam params 1) with
  | none => simp [hp, countAnswers]
  | some page =>
      simp only [hp]
      split
      · simp [countAnswers]
      · split
        · simp only []
          rw [countAnswers_cons_self, countAnswers_handleFileCallback_list]
          omega
        · simp [countAnswers]

theorem countAnswers_handleCategoryCallback (ctx : Ctx) (db : Store) (q : CbQuery)
    (params : List String) :
    countAnswers (handleCategoryCallback ctx db q params).2 q.id = 1 := by
  simp only [handleCategoryCallback]
  split
  · simp [countAnswers]
  · split <;> simp [countAnswers]

theorem countAnswers_handleConfirmCallback (ctx : Ctx) (db : Store) (q : CbQuery)
    (params : List String) :
    countAnswers (handleConfirmCallback ctx db q params).2 q.id = 1 := by
  simp only [handleConfirmCallback]
  split
  · split <;> simp [countAnswers]
  · split <;> simp [countAnswers]

/-- C3 counterexample: the recognized callback `file:delete:x` answers its
query twice — once on entry to `handleFileCallback` and again inside the
delegated `handleDeleteCallback` — so "exactly once" fails. -/
theorem claim3_counterexample :
    countAnswers (processCallbackQuery ctx0 {} ⟨"q1", 5, "file:delete:x", ⟨1, 2⟩⟩).2 "q1" = 2 ∧
    countAnswers (processCallbackQuery ctx0 {} ⟨"q1", 5, "file:delete:x", ⟨1, 2⟩⟩).2 "q1" ≠ 1 :=
  ⟨by decide, by decide⟩

/-- C3 as amended: every callback dispatched to a recognized action
(`file`, `page`, `category`, `delete`, `confirm`) acknowledges its query
at least once — but not always exactly once: delegating paths
(`file:delete`, unknown `file` sub-actions, `page` with a valid page
number) acknowledge twice, so the precise guarantee is between one and
two acknowledgments. -/
theorem claim3_ack_bounds (ctx : Ctx) (db : Store) (q : CbQuery)
    (h : (splitColon q.data).headD "" ∈
      (["file", "page", "category", "delete", "confirm"] : List String)) :
    1 ≤ countAnswers (processCallbackQuery ctx db q).2 q.id ∧
    countAnswers (processCallbackQuery ctx db q).2 q.id ≤ 2 := by
  simp only [processCallbackQuery]
  simp only [List.mem_cons, List.not_mem_nil, or_false] at h
  rcases h with h | h | h | h | h
  all_goals rw [h]
  · rw [if_pos rfl]
    exact countAnswers_handleFileCallback_bound ctx _ q _
  · rw [if_neg (by decide), if_pos rfl]
    exact countAnswers_handlePageCallback_bound ctx _ q _
  · rw [if_neg (by decide), if_neg (by decide), if_pos rfl,
      countAnswers_handleCategoryCallback]
    omega
  · rw [if_neg (by decide), if_neg (by decide), if_neg (by decide), if_pos rfl,
      countAnswers_handleDeleteCallback]
    omega
  · rw [if_neg (by decide), if_neg (by decide), if_neg (by decide), if_neg (by decide),
      if_pos rfl, countAnswers_handleConfirmCallback]
    omega

/-- Witness for the amended C3 at a concrete recognized callback
(`category:documents`). -/
theorem claim3_witness :
    ((splitColon "category:documents").headD "" ∈
      (["file", "page", "category", "delete", "confirm"] : List String)) ∧
    (1 ≤ countAnswers
        (processCallbackQuery ctx0 db0 ⟨"q2", 9, "category:documents", ⟨1, 2⟩⟩).2 "q2" ∧
     countAnswers
        (processCallbackQuery ctx0 db0 ⟨"q2", 9, "category:documents", ⟨1, 2⟩⟩).2 "q2" ≤ 2) :=
  ⟨by decide, claim3_ack_bounds ctx0 db0 ⟨"q2", 9, "category:documents", ⟨1, 2⟩⟩ (by decide)⟩

/-! Slice evaluation on a 7-element list (for C8). -/

theorem jsSlice_zero_five {α : Type} (l : List α) (h : l.length = 7) :
    jsSlice l 0 5 = l.take 5 := by
  simp only [jsSlice, h]
  norm_num
  rfl

theorem jsSlice_five_seven {α : Type} (l : List α) (h : l.length = 7) :
    jsSlice l 5 7 = l.drop 5 := by
  simp only [jsSlice, h]
  norm_num
  show (l.take 7).drop 5 = l.drop 5
  rw [show l.take 7 = l from by rw [← h]; exact List.take_length l]

/-- C8.  With exactly 7 resolvable saved files and the fixed page size 5:
`/files` renders page 1 with items 1–5 (share/delete rows numbered from
`startIdx` 0) and a "next"-only pagination row targeting page 2; the
`page:files:2` callback re-renders items 6–7 (rows numbered from
`startIdx` 5) with a "previous"-only pagination row targeting page 1. -/
theorem claim8_pagination_seven (ctx : Ctx) (db : Store) (q : CbQuery) (m : Msg)
    (files : List FileRecord)
    (hfiles : getUserFiles db (toString q.fromId) = files)
    (hlen : files.length = 7)
    (hm : m.fromId = q.fromId) :
    (∃ text, handleFiles db m =
      (db, [Eff.sendMessage m.chatId text
        (some (fileRows (files.take 5) 0 ++ [[⟨"➡️ Next", "page:files:2"⟩]]))])) ∧
    (∃ text, handlePageCallback ctx db q ["files", "2"] =
      (db, [Eff.answerCallbackQuery q.id none, Eff.answerCallbackQuery q.id none,
            Eff.editMessageText q.message.chatId q.message.message_id text
              (some (fileRows (files.drop 5) 5 ++ [[⟨"⬅️ Previous", "page:files:1"⟩]]))])) := by
  have hne : files.isEmpty = false := by
    cases files with
    | nil => simp at hlen
    | cons a l => rfl
  have hpag1 : paginationRow 1 2 = [⟨"➡️ Next", "page:files:2"⟩] := by decide
  have hpag2 : paginationRow 2 2 = [⟨"⬅️ Previous", "page:files:1"⟩] := by decide
  constructor
  · simp only [handleFiles, hm, hfiles, hne, Bool.false_eq_true, if_false]
    rw [hlen]
    norm_num
    rw [jsSlice_zero_five files hlen]
    simp only [listKeyboard, hpag1]
    simp
  · simp only [handlePageCallback]
    have hp : jsParseInt (getParam ["files", "2"] 1) = some 2 := by decide
    simp only [hp]
    rw [if_neg (by decide), if_pos (show getParam ["files", "2"] 0 = "files" from rfl)]
    have ht : toString (2 : Int) = "2" := by decide
    rw [ht]
    simp only [handleFileCallback]
    rw [if_neg (by decide), if_neg (by decide),
      if_pos (show getParam ["list", "2"] 0 = "list" from rfl)]
    have hp2 : jsParseInt (getParam ["list", "2"] 1) = some 2 := by decide
    simp only [hp2]
    rw [if_neg (by decide)]
    simp only [fileListEdit, hfiles, hne, Bool.false_eq_true, if_false]
    rw [hlen]
    norm_num
    rw [jsSlice_five_seven files hlen]
    simp only [listKeyboard, hpag2]
    simp

def rec7 (i : Nat) : FileRecord :=
  { id := "f" ++ toString i,
    fileData := { file_id := "h" ++ toString i, file_type := "document",
                  file_unique_id := "u" ++ toString i, file_size := 1 },
    savedBy := "5", category := "general", createdAt := i, accessCount := 0,
    lastAccessed := none }

def db7 : Store :=
  { files := (List.range 7).map (fun i => ("file:f" ++ toString i, rec7 i)),
    userFiles := [("user:files:5", (List.range 7).map (fun i => "f" ++ toString i))] }

def m7 : Msg := ⟨50, 5, 1, some "/files", none, none, none⟩

def q7 : CbQuery := ⟨"Q", 5, "page:files:2", ⟨50, 77⟩⟩

/-- Witness for C8 at a user with exactly 7 stored, resolvable files. -/
theorem claim8_witness :
    (getUserFiles db7 "5").length = 7 ∧
    (∃ text, handleFiles db7 m7 =
      (db7, [Eff.sendMessage m7.chatId text
        (some (fileRows ((getUserFiles db7 "5").take 5) 0 ++
          [[⟨"➡️ Next", "page:files:2"⟩]]))])) ∧
    (∃ text, handlePageCallback ctx0 db7 q7 ["files", "2"] =
      (db7, [Eff.answerCallbackQuery q7.id none, Eff.answerCallbackQuery q7.id none,
            Eff.editMessageText q7.message.chatId q7.message.message_id text
              (some (fileRows ((getUserFiles db7 "5").drop 5) 5 ++
                [[⟨"⬅️ Previous", "page:files:1"⟩]]))])) :=
  ⟨by decide,
   (claim8_pagination_seven ctx0 db7 q7 m7 (getUserFiles db7 "5") rfl (by decide) rfl).1,
   (claim8_pagination_seven ctx0 db7 q7 m7 (getUserFiles db7 "5") rfl (by decide) rfl).2⟩

def recA (id : String) (v : Nat) : FileRecord :=
  { id := id,
    fileData := { file_id := "h" ++ id, file_type := "document",
                  file_unique_id := "u" ++ id, file_size := 1 },
    savedBy := "7", category := "general", createdAt := 0, accessCount := v,
    lastAccessed := none }

/-- Eleven stored records; only the lexicographically last one
(`file:a11`) has ever been accessed. -/
def db11 : Store :=
  { files := [("file:a01", recA "a01" 0), ("file:a02", recA "a02" 0),
              ("file:a03", recA "a03" 0), ("file:a04", recA "a04" 0),
              ("file:a05", recA "a05" 0), ("file:a06", recA "a06" 0),
              ("file:a07", recA "a07" 0), ("file:a08", recA "a08" 0),
              ("file:a09", recA "a09" 0), ("file:a10", recA "a10" 0),
              ("file:a11", recA "a11" 5)] }

/-- C2 counterexample: the admin `/stats` report is not the top 5 by
`accessCount` over all stored records.  With 11 records where only the
11th listed one was ever accessed, the code’s popular-files list is empty
(it scans only `files.slice(0, 10)` and drops records with falsy
`accessCount`), while the spec-side top 5 contains the accessed record. -/
theorem claim2_counterexample :
    statsReport db11 ≠ specStatsReport db11 ∧
    popularFiles db11 = [] ∧
    recA "a11" 5 ∈ specPopularFiles db11 :=
  ⟨by decide, by decide, by decide⟩

/-- C2 as amended: for an admin sender, `/stats` reports the distinct-user
count, the total action count, and the top 5 by `accessCount` descending
(ties stable) over the *candidate* records only — the records among the
first 10 listed `file:` keys whose `accessCount` is nonzero — rather than
over all stored records. -/
theorem claim2_stats_top5_amended (ctx : Ctx) (db : Store) (m : Msg)
    (h : isAdmin ctx (toString m.fromId)) :
    handleStats ctx db m = (db, [Eff.sendMessage m.chatId (adminStatsText db) none]) ∧
    (statsReport db).1 = (getStats db).users.length ∧
    (statsReport db).2.1 = ((getStats db).actions.map Prod.snd).foldl (· + ·) 0 ∧
    List.Sorted viewsDescR (popularFiles db) ∧
    (popularFiles db).length = min 5 (statsCandidates db).length ∧
    ∃ rest, (popularFiles db ++ rest).Perm (statsCandidates db) ∧
      ∀ a ∈ popularFiles db, ∀ b ∈ rest, b.accessCount ≤ a.accessCount := by
  refine ⟨?_, rfl, rfl, ?_, ?_, ?_⟩
  · simp only [handleStats]
    rw [if_neg (not_not_intro h)]
  · exact List.Pairwise.sublist (List.take_sublist 5 _)
      (List.sorted_insertionSort viewsDescR (statsCandidates db))
  · unfold popularFiles
    rw [List.length_take, (List.perm_insertionSort viewsDescR (statsCandidates db)).length_eq]
  · refine ⟨(List.insertionSort viewsDescR (statsCandidates db)).drop 5, ?_, ?_⟩
    · have hsplit : popularFiles db ++
          (List.insertionSort viewsDescR (statsCandidates db)).drop 5 =
          List.insertionSort viewsDescR (statsCandidates db) := by
        unfold popularFiles
        exact List.take_append_drop 5 _
      rw [hsplit]
      exact List.perm_insertionSort viewsDescR (statsCandidates db)
    · intro a ha b hb
      have hp := List.sorted_insertionSort viewsDescR (statsCandidates db)
      rw [← List.take_append_drop 5
        (List.insertionSort viewsDescR (statsCandidates db))] at hp
      exact (List.pairwise_append.mp hp).2.2 a ha b hb

def mAdmin : Msg := ⟨1, 7, 1, some "/stats", none, none, none⟩

/-- Witness for the amended C2 at a concrete admin sender and the
11-record store. -/
theorem claim2_witness :
    isAdmin ctx0 (toString mAdmin.fromId) ∧
    (handleStats ctx0 db11 mAdmin =
      (db11, [Eff.sendMessage mAdmin.chatId (adminStatsText db11) none]) ∧
     (statsReport db11).1 = (getStats db11).users.length ∧
     (statsReport db11).2.1 = ((getStats db11).actions.map Prod.snd).foldl (· + ·) 0 ∧
     List.Sorted viewsDescR (popularFiles db11) ∧
     (popularFiles db11).length = min 5 (statsCandidates db11).length ∧
     ∃ rest, (popularFiles db11 ++ rest).Perm (statsCandidates db11) ∧
       ∀ a ∈ popularFiles db11, ∀ b ∈ rest, b.accessCount ≤ a.accessCount) :=
  ⟨by decide, claim2_stats_top5_amended ctx0 db11 mAdmin (by decide)⟩

end FSB
